import Mathlib

/-!
Shallow embedding of `static/script_report.js`: the filename parser
(`parseFilenameFromDisposition`), the download transaction's filename
defaulting, the message rendering, and an event-level model of the
page's state machine (landing view, credential modal, home button,
in-flight fetches, object-URL lifecycle).
-/

deriving instance DecidableEq for Except

namespace Olyph

/-! ### JS string builtins used by the script -/

/-- The apostrophe character (avoids quoting issues in string literals). -/
def apos : Char := Char.ofNat 39

/-- Whitespace as `String.prototype.trim` strips it (the characters that
occur in this development). -/
def jsWhitespace (c : Char) : Bool :=
  c == ' ' || c == '\t' || c == '\n' || c == '\r'

/-- Modelled builtin `String.prototype.trim`. -/
def jsTrim (s : String) : String :=
  (((s.data.dropWhile jsWhitespace).reverse.dropWhile jsWhitespace).reverse).asString

/-- Modelled builtin `String.prototype.toLowerCase` (ASCII range, which is all
the script compares against). -/
def jsToLower (s : String) : String :=
  (s.data.map Char.toLower).asString

/-- Modelled builtin `String.prototype.includes`. -/
def containsSub (needle : List Char) : List Char → Bool
  | [] => needle.isEmpty
  | c :: cs => needle.isPrefixOf (c :: cs) || containsSub needle cs

/-! ### Modelled builtin `decodeURIComponent`

ECMAScript's `decodeURIComponent` throws `URIError` on a `%` not followed by
two hex digits and on percent-escapes that do not form valid UTF-8.  We model
it in two phases: turn the string into a byte sequence (`%XX` contributes the
byte `XX`, any other character contributes its UTF-8 bytes — a literal
character always round-trips through UTF-8, and no character's encoding starts
with a continuation byte, so this is extensionally the ECMAScript behaviour),
then decode the bytes as UTF-8 rejecting truncated sequences, stray
continuation bytes, overlong forms, surrogates and values above `0x10FFFF`.
`none` models a thrown `URIError`. -/

/-- The value of one hex digit (`0-9`, `A-F`, `a-f`), by code point. -/
def hexDigit (c : Char) : Option Nat :=
  let n := c.toNat
  if 48 ≤ n ∧ n ≤ 57 then some (n - 48)
  else if 65 ≤ n ∧ n ≤ 70 then some (n - 55)
  else if 97 ≤ n ∧ n ≤ 102 then some (n - 87)
  else none

/-- The UTF-8 bytes of one character. -/
def charUtf8 (c : Char) : List Nat :=
  let n := c.toNat
  if n < 0x80 then [n]
  else if n < 0x800 then [0xC0 + n / 0x40, 0x80 + n % 0x40]
  else if n < 0x10000 then
    [0xE0 + n / 0x1000, 0x80 + (n / 0x40) % 0x40, 0x80 + n % 0x40]
  else
    [0xF0 + n / 0x40000, 0x80 + (n / 0x1000) % 0x40, 0x80 + (n / 0x40) % 0x40,
      0x80 + n % 0x40]

/-- Phase one: percent-unescaping to bytes; `none` when a `%` is not followed
by two hex digits. -/
def pctBytes : List Char → Option (List Nat)
  | [] => some []
  | '%' :: h1 :: h2 :: rest =>
    match hexDigit h1, hexDigit h2 with
    | some a, some b => (pctBytes rest).map (fun bs => (16 * a + b) :: bs)
    | _, _ => none
  | '%' :: _ => none
  | c :: rest => (pctBytes rest).map (fun bs => charUtf8 c ++ bs)

/-- Phase two: strict UTF-8 decoding; `none` on any malformed sequence. -/
def utf8Decode : List Nat → Option (List Char)
  | [] => some []
  | b :: rest =>
    if b < 0x80 then (utf8Decode rest).map (fun cs => Char.ofNat b :: cs)
    else if b < 0xC0 then none
    else if b < 0xE0 then
      match rest with
      | c1 :: rest1 =>
        if 0x80 ≤ c1 ∧ c1 < 0xC0 then
          let cp := (b - 0xC0) * 0x40 + (c1 - 0x80)
          if 0x80 ≤ cp then (utf8Decode rest1).map (fun cs => Char.ofNat cp :: cs)
          else none
        else none
      | [] => none
    else if b < 0xF0 then
      match rest with
      | c1 :: c2 :: rest2 =>
        if (0x80 ≤ c1 ∧ c1 < 0xC0) ∧ (0x80 ≤ c2 ∧ c2 < 0xC0) then
          let cp := (b - 0xE0) * 0x1000 + (c1 - 0x80) * 0x40 + (c2 - 0x80)
          if 0x800 ≤ cp ∧ (cp < 0xD800 ∨ 0xDFFF < cp) then
            (utf8Decode rest2).map (fun cs => Char.ofNat cp :: cs)
          else none
        else none
      | _ => none
    else if b ≤ 0xF4 then
      match rest with
      | c1 :: c2 :: c3 :: rest3 =>
        if (0x80 ≤ c1 ∧ c1 < 0xC0) ∧ (0x80 ≤ c2 ∧ c2 < 0xC0) ∧
            (0x80 ≤ c3 ∧ c3 < 0xC0) then
          let cp := (b - 0xF0) * 0x40000 + (c1 - 0x80) * 0x1000 +
            (c2 - 0x80) * 0x40 + (c3 - 0x80)
          if 0x10000 ≤ cp ∧ cp ≤ 0x10FFFF then
            (utf8Decode rest3).map (fun cs => Char.ofNat cp :: cs)
          else none
        else none
      | _ => none
    else none

/-- Modelled builtin `decodeURIComponent`; `none` models a thrown `URIError`. -/
def decodeURIComponent (s : String) : Option String :=
  ((pctBytes s.data).bind utf8Decode).map List.asString

/-! ### The three regexes of `parseFilenameFromDisposition`

Each regex is a literal followed by a greedy nonempty character-class run
(`filename*=UTF-8''([^;]+)`, `filename="([^"]+)"`, `filename=([^;]+)`).
`String.prototype.match` without `/g` returns the match at the leftmost
position where the whole pattern matches, so each matcher attempts the
pattern at every position from the left and keeps the first success. -/

/-- The literal `filename*=UTF-8''` of the first regex. -/
def extLit : List Char := "filename*=UTF-8".data ++ [apos, apos]

/-- The literal `filename="` of the second regex. -/
def quotLit : List Char := "filename=\"".data

/-- The literal `filename=` of the third regex. -/
def bareLit : List Char := "filename=".data

/-- One attempt of `lit` followed by a greedy nonempty run of characters
satisfying `p`, anchored at the head of `s`; returns the captured run. -/
def matchRunAt (lit : List Char) (p : Char → Bool) (s : List Char) :
    Option (List Char) :=
  if lit.isPrefixOf s then
    let cap := (s.drop lit.length).takeWhile p
    if cap.isEmpty then none else some cap
  else none

/-- One attempt of `filename="([^"]+)"` anchored at the head of `s`: the
greedy run of non-quote characters must be nonempty and followed by `"`. -/
def matchQuotedAt (s : List Char) : Option (List Char) :=
  if quotLit.isPrefixOf s then
    let rest := s.drop quotLit.length
    let cap := rest.takeWhile (fun c => c != '"')
    if cap.isEmpty then none
    else
      match rest.drop cap.length with
      | '"' :: _ => some cap
      | _ => none
  else none

/-- Leftmost match: try the anchored attempt at every position, left to
right, and keep the first success — how the regex engine scans. -/
def scanFirst (f : List Char → Option (List Char)) : List Char → Option (List Char)
  | [] => f []
  | c :: cs =>
    match f (c :: cs) with
    | some r => some r
    | none => scanFirst f cs

/-- `disposition.match(/filename\*=UTF-8''([^;]+)/)`, the captured group. -/
def extMatch (s : String) : Option String :=
  (scanFirst (matchRunAt extLit (fun c => c != ';')) s.data).map List.asString

/-- `disposition.match(/filename="([^"]+)"/)`, the captured group. -/
def quotedMatch (s : String) : Option String :=
  (scanFirst matchQuotedAt s.data).map List.asString

/-- `disposition.match(/filename=([^;]+)/)`, the captured group. -/
def bareMatch (s : String) : Option String :=
  (scanFirst (matchRunAt bareLit (fun c => c != ';')) s.data).map List.asString

/-- The one exception the parser can raise: `decodeURIComponent`'s
`URIError`. -/
inductive JsError where
  | uriError
  deriving DecidableEq

/-- Lines 27–36.  `none` input models an absent header; `if (!disposition)`
also treats the empty string as falsy.  A successful regex match is followed
by the truthiness test `match && match[1]`, which coincides with match
success because each captured group is a `+` run and hence nonempty.
`Except.error` models the uncaught `URIError` of `decodeURIComponent`. -/
def parseFilenameFromDisposition (disposition : Option String) :
    Except JsError (Option String) :=
  match disposition with
  | none => .ok none
  | some s =>
    if s = "" then .ok none
    else
      match extMatch s with
      | some v =>
        match decodeURIComponent v with
        | some d => .ok (some d)
        | none => .error .uriError
      | none =>
        match quotedMatch s with
        | some v => .ok (some v)
        | none =>
          match bareMatch s with
          | some v => .ok (some v)
          | none => .ok none

/-- Line 159's default: `defaultFormat === "xlsx" ? "report.xlsx" : "report.csv"`. -/
def defaultFilename (fmt : String) : String :=
  if fmt = "xlsx" then "report.xlsx" else "report.csv"

/-- Line 159: `parseFilenameFromDisposition(disposition) || default` — JS `||`
also replaces an empty-string result with the default. -/
def resolveFilename (disposition : Option String) (fmt : String) :
    Except JsError String :=
  (parseFilenameFromDisposition disposition).map fun r =>
    match r with
    | some n => if n = "" then defaultFilename fmt else n
    | none => defaultFilename fmt

/-! ### The page's state machine

Event-level model of the script's handlers.  Each DOM event handler runs
atomically on the single thread; the `fetch` is the only suspension point, so
a request's continuation is a separate `resolve` event.  A continuation's
closure holds the elements of the modal it was created for; writes to those
elements are visible only while that modal (identified by its generation
number `modalGen`) is still the attached one. -/

/-- The visible page state plus the transaction counters the spec talks
about (`fetchesIssued`, `urlsCreated`, `urlsReleased`, `pending`). -/
structure UIState where
  isLanding : Bool
  homeBtnExists : Bool
  homeVisible : Bool
  downloadBtnVisible : Bool
  modalOpen : Bool
  modalGen : Nat
  usernameValue : String
  passwordValue : String
  errorText : String
  focusUsername : Bool
  submitDisabled : Bool
  cancelDisabled : Bool
  submitLabel : String
  messages : List (String × String)
  pending : List Nat
  fetchesIssued : Nat
  urlsCreated : Nat
  urlsReleased : Nat
  deriving DecidableEq

/-- Line 212's welcome text. -/
def welcomeMsg : String := "👋 Welcome to the Olyph AI Employee."

/-- Lines 240 and 260. -/
def openingMsg : String := "Opening authentication modal..."

/-- Line 108. -/
def cancelMsg : String := "Report download cancelled."

/-- Line 132. -/
def authMsg : String := "Authenticating and preparing report..."

/-- Line 123. -/
def validationMsg : String := "Please enter both username and password."

/-- Line 266's help text. -/
def helpMsg : String :=
  "Type " ++ apos.toString ++ "download" ++ apos.toString ++
    " or click the Download Report button to begin."

/-- Line 146: the warning message for an HTTP error. -/
def warnText (e : String) : String := "⚠️ " ++ e

/-- Line 171: the success message naming the saved file. -/
def successText (filename : String) : String :=
  "✅ Report \"" ++ filename ++ "\" downloaded successfully!"

/-- Line 180. -/
def failedMsg : String := "❌ Failed to download report. See console for details."

/-- Line 179's inline error prefix. -/
def netErrPrefix : String := "Network error: "

/-- Lines 19–25, `addMessage`: append-only message log. -/
def addMsg (s : UIState) (content sender : String) : UIState :=
  { s with messages := s.messages ++ [(content, sender)] }

/-- `ensureHomeButton()` followed by `hb.style.display = "inline-block"`. -/
def showHome (s : UIState) : UIState :=
  { s with homeBtnExists := true, homeVisible := true }

/-- Lines 69–73 and 75–201, `openCredentialModal`: returns the existing
overlay unchanged when one is open, otherwise builds a fresh modal (empty
fields, no error, both buttons enabled, focus on the username field). -/
def openCredentialModal (s : UIState) : UIState :=
  if s.modalOpen then s
  else
    { s with
      modalOpen := true
      modalGen := s.modalGen + 1
      usernameValue := ""
      passwordValue := ""
      errorText := ""
      focusUsername := true
      submitDisabled := false
      cancelDisabled := false
      submitLabel := "Download" }

/-- Lines 106–114, `onCancel`: message, close the modal, reveal the home
button, leave the landing flag cleared. -/
def onCancel (s : UIState) : UIState :=
  let s1 := addMsg s cancelMsg "bot"
  let s2 := { s1 with modalOpen := false }
  let s3 := showHome s2
  { s3 with isLanding := false }

/-- Lines 116–139, `onSubmit` up to the `fetch`: clear the inline error,
validate (`username.trim()` nonempty, `password` nonempty untrimmed); on
failure show the inline error and refocus the username field; on success
disable both buttons, switch the submit label to the busy text, log the
progress message and issue the request (recorded in `pending` under the
current modal's generation). -/
def onSubmitSync (s : UIState) : UIState :=
  let s0 := { s with errorText := "" }
  if jsTrim s.usernameValue = "" ∨ s.passwordValue = "" then
    { s0 with errorText := validationMsg, focusUsername := true }
  else
    let s1 := { s0 with
      submitDisabled := true
      cancelDisabled := true
      submitLabel := "Downloading..." }
    let s2 := addMsg s1 authMsg "bot"
    { s2 with
      pending := s2.pending ++ [s2.modalGen]
      fetchesIssued := s2.fetchesIssued + 1 }

/-- A continuation's write to its own modal's elements: visible only while
that modal is still the attached one. -/
def ifAttached (gen : Nat) (s : UIState) (f : UIState → UIState) : UIState :=
  if s.modalOpen && s.modalGen == gen then f s else s

/-- Lines 147–149 and 181–183: re-enable both buttons and restore the
submit label. -/
def reEnable (s : UIState) : UIState :=
  { s with
    submitDisabled := false
    cancelDisabled := false
    submitLabel := "Download" }

/-- Line 170: `closeModal()` from the success continuation removes its own
overlay; only the attached modal's state changes. -/
def closeModalIfCurrent (gen : Nat) (s : UIState) : UIState :=
  if s.modalOpen && s.modalGen == gen then { s with modalOpen := false } else s

/-- Lines 141–155: the non-`ok` response branch. -/
def settleHttpError (gen : Nat) (e : String) (s : UIState) : UIState :=
  let s1 := ifAttached gen s (fun t => { t with errorText := e })
  let s2 := addMsg s1 (warnText e) "bot"
  let s3 := ifAttached gen s2 reEnable
  { (showHome s3) with isLanding := false }

/-- Lines 177–187: the `catch` branch (transport failure, a `URIError`
escaping `parseFilenameFromDisposition`, or a throwing save action). -/
def settleCatch (gen : Nat) (m : String) (s : UIState) : UIState :=
  let s1 := ifAttached gen s (fun t => { t with errorText := netErrPrefix ++ m })
  let s2 := addMsg s1 failedMsg "bot"
  let s3 := ifAttached gen s2 reEnable
  { (showHome s3) with isLanding := false }

/-- How one request settles: a non-`ok` HTTP response carrying an optional
JSON error body, a transport failure, or an `ok` response carrying the
`Content-Disposition` header (absent allowed) — with `clickError = some m`
modelling `a.click()` throwing with message `m`. -/
inductive Outcome where
  | httpError (errorBody : Option String) (status : Nat)
  | netError (msg : String)
  | success (disposition : Option String) (clickError : Option String)
  deriving DecidableEq

/-- Lines 141–187: the continuation that runs when the request of modal
generation `gen` settles.  On `ok`: resolve the filename (a thrown
`URIError` lands in the `catch`), create the object URL, click the anchor
(a throw lands in the `catch` *before* `revokeObjectURL` — the release is
skipped), otherwise release the URL, close the modal and log success. -/
def settleResponse (gen : Nat) (o : Outcome) (s : UIState) : UIState :=
  match o with
  | .httpError body status =>
    let e := match body with
      | some e => if e = "" then "Server returned " ++ toString status else e
      | none => "Server returned " ++ toString status
    settleHttpError gen e s
  | .netError m => settleCatch gen m s
  | .success disposition clickError =>
    match resolveFilename disposition "csv" with
    | .error _ => settleCatch gen "URI malformed" s
    | .ok filename =>
      let s1 := { s with urlsCreated := s.urlsCreated + 1 }
      match clickError with
      | some m => settleCatch gen m s1
      | none =>
        let s2 := { s1 with urlsReleased := s1.urlsReleased + 1 }
        let s3 := closeModalIfCurrent gen s2
        let s4 := addMsg s3 (successText filename) "bot"
        { (showHome s4) with isLanding := false }

/-- Lines 204–247, `initReportChat`: hide the home button, clear the log,
log the welcome message and render the entry-point button.  The credential
modal overlay lives on `document.body`, not in `chatBody`, so it is *not*
touched. -/
def initReportChat (s : UIState) : UIState :=
  let s1 := { s with
    isLanding := true
    homeBtnExists := true
    homeVisible := false }
  let s2 := { s1 with messages := [] }
  let s3 := addMsg s2 welcomeMsg "bot"
  { s3 with downloadBtnVisible := true }

/-- Lines 237–246: the entry-point button's click handler. -/
def entryHandler (s : UIState) : UIState :=
  let s1 := { s with downloadBtnVisible := false }
  let s2 := addMsg s1 openingMsg "bot"
  let s3 := openCredentialModal s2
  { (showHome s3) with isLanding := false }

/-- Lines 250–268: the send button's click handler for typed text. -/
def typedHandler (text : String) (s : UIState) : UIState :=
  let m := jsTrim text
  if m = "" then s
  else
    let s1 := addMsg s m "user"
    if containsSub "download".data (jsToLower m).data then
      let s2 := { s1 with downloadBtnVisible := false }
      let s3 := addMsg s2 openingMsg "bot"
      let s4 := openCredentialModal s3
      { (showHome s4) with isLanding := false }
    else
      addMsg s1 helpMsg "bot"

/-- The events the page reacts to.  `submitClick`/`cancelClick` reach their
handler only through an enabled button; `keyEnter`/`keyEscape` are the
overlay's `keydown` handler, which calls the same handlers directly with no
disabled-state check; `resolve` is a pending request settling. -/
inductive UIEvent where
  | entryClick
  | typed (text : String)
  | inputCreds (u p : String)
  | submitClick
  | cancelClick
  | keyEnter
  | keyEscape
  | homeClick
  | resolve (gen : Nat) (o : Outcome)
  deriving DecidableEq

/-- One atomic turn of the event loop. -/
def step (s : UIState) : UIEvent → UIState
  | .entryClick => if s.downloadBtnVisible then entryHandler s else s
  | .typed t => typedHandler t s
  | .inputCreds u p =>
    if s.modalOpen then { s with usernameValue := u, passwordValue := p } else s
  | .submitClick =>
    if s.modalOpen && !s.submitDisabled then onSubmitSync s else s
  | .cancelClick =>
    if s.modalOpen && !s.cancelDisabled then onCancel s else s
  | .keyEnter => if s.modalOpen then onSubmitSync s else s
  | .keyEscape => if s.modalOpen then onCancel s else s
  | .homeClick =>
    if s.homeBtnExists && s.homeVisible then initReportChat s else s
  | .resolve gen o =>
    if s.pending.contains gen then
      settleResponse gen o { s with pending := s.pending.erase gen }
    else s

/-- The state after the `DOMContentLoaded` handler ran (it ends in
`initReportChat()`). -/
def initState : UIState :=
  initReportChat
    { isLanding := true
      homeBtnExists := false
      homeVisible := false
      downloadBtnVisible := false
      modalOpen := false
      modalGen := 0
      usernameValue := ""
      passwordValue := ""
      errorText := ""
      focusUsername := false
      submitDisabled := false
      cancelDisabled := false
      submitLabel := "Download"
      messages := []
      pending := []
      fetchesIssued := 0
      urlsCreated := 0
      urlsReleased := 0 }

/-- The state after a sequence of events starting from the loaded page. -/
def runEvents (es : List UIEvent) : UIState :=
  es.foldl step initState

/-- A valid submission already dispatched and awaiting its response. -/
def inFlightState : UIState :=
  runEvents [.entryClick, .inputCreds "a" "b", .keyEnter]

/-! ### Rendering of one message log entry

Line 22 assigns `String(content).replace(/\n/g, "<br/>")` to the entry's
`innerHTML`, so the browser parses the stored string as HTML markup. -/

/-- Line 22: the string assigned to the entry's `innerHTML`. -/
def replaceNewlines : List Char → List Char
  | [] => []
  | c :: rest =>
    if c = '\n' then '<' :: 'b' :: 'r' :: '/' :: '>' :: replaceNewlines rest
    else c :: replaceNewlines rest

/-- The markup `addMessage` stores for a content string. -/
def addMessageMarkup (content : String) : String :=
  (replaceNewlines content.data).asString

/-- Modelled builtin: how a browser derives an element's visible text from
markup assigned to `innerHTML`.  Characters between `<` and `>` form a tag
(the accumulator holds the tag's characters, most recent first): a `br/` tag
displays as a line break and any other tag contributes no text; characters
outside tags display themselves. -/
def renderAux : Option (List Char) → List Char → List Char
  | none, [] => []
  | some _, [] => []
  | none, c :: rest =>
    if c = '<' then renderAux (some []) rest else c :: renderAux none rest
  | some acc, c :: rest =>
    if c = '>' then
      if acc = ['/', 'r', 'b'] then '\n' :: renderAux none rest
      else renderAux none rest
    else renderAux (some (c :: acc)) rest

/-- The text a rendered entry displays for the given markup. -/
def renderedText (markup : String) : String :=
  (renderAux none markup.data).asString

/-- A `Content-Disposition` value in the extended form, used as a witness
input. -/
def extHeaderExample : String :=
  ("attachment; ".data ++ extLit ++ "r%C3%A9sum%C3%A9.csv".data).asString

/-- An extended-form header whose percent-encoded value is malformed: the
capture is the single character `%`. -/
def badHeader : String := (extLit ++ ['%']).asString

/-- C6's invariant: the home button exists, and is shown exactly when the
session is off the landing (Initial) state. -/
def HomeInv (s : UIState) : Prop :=
  s.homeBtnExists = true ∧ s.homeVisible = !s.isLanding

/-! ### Helper lemmas -/

theorem extMatch_empty : extMatch "" = none := by decide

theorem quotedMatch_empty : quotedMatch "" = none := by decide

theorem settleCatch_urlsCreated (gen : Nat) (m : String) (s : UIState) :
    (settleCatch gen m s).urlsCreated = s.urlsCreated := by
  simp only [settleCatch, ifAttached, addMsg, reEnable, showHome]
  split <;> rfl

theorem settleCatch_urlsReleased (gen : Nat) (m : String) (s : UIState) :
    (settleCatch gen m s).urlsReleased = s.urlsReleased := by
  simp only [settleCatch, ifAttached, addMsg, reEnable, showHome]
  split <;> rfl

theorem settleHttpError_urlsCreated (gen : Nat) (e : String) (s : UIState) :
    (settleHttpError gen e s).urlsCreated = s.urlsCreated := by
  simp only [settleHttpError, ifAttached, addMsg, reEnable, showHome]
  split <;> rfl

theorem settleHttpError_urlsReleased (gen : Nat) (e : String) (s : UIState) :
    (settleHttpError gen e s).urlsReleased = s.urlsReleased := by
  simp only [settleHttpError, ifAttached, addMsg, reEnable, showHome]
  split <;> rfl

theorem closeModalIfCurrent_urlsCreated (gen : Nat) (s : UIState) :
    (closeModalIfCurrent gen s).urlsCreated = s.urlsCreated := by
  simp only [closeModalIfCurrent]
  split <;> rfl

theorem closeModalIfCurrent_urlsReleased (gen : Nat) (s : UIState) :
    (closeModalIfCurrent gen s).urlsReleased = s.urlsReleased := by
  simp only [closeModalIfCurrent]
  split <;> rfl

/-! ### C1 — filename precedence and the format-derived default -/

/-- C1: filename resolution applies ordered precedence with first match
winning — an extended match returns the percent-decoded capture, otherwise a
quoted match returns its capture verbatim, otherwise a bare match returns
its capture verbatim, otherwise the parser returns null; the transaction
substitutes the format-derived default (`report.xlsx` exactly for format
`"xlsx"`, else `report.csv`) when the parser returns null, and an absent
header resolves to null. -/
theorem c1_filename_precedence :
    (∀ s v d, extMatch s = some v → decodeURIComponent v = some d →
      parseFilenameFromDisposition (some s) = Except.ok (some d)) ∧
    (∀ s v, extMatch s = none → quotedMatch s = some v →
      parseFilenameFromDisposition (some s) = Except.ok (some v)) ∧
    (∀ s v, extMatch s = none → quotedMatch s = none → bareMatch s = some v →
      parseFilenameFromDisposition (some s) = Except.ok (some v)) ∧
    (∀ s, extMatch s = none → quotedMatch s = none → bareMatch s = none →
      parseFilenameFromDisposition (some s) = Except.ok none) ∧
    parseFilenameFromDisposition none = Except.ok none ∧
    (∀ dis fmt, parseFilenameFromDisposition dis = Except.ok none →
      resolveFilename dis fmt = Except.ok (defaultFilename fmt)) ∧
    (∀ dis fmt n, parseFilenameFromDisposition dis = Except.ok (some n) →
      n ≠ "" → resolveFilename dis fmt = Except.ok n) ∧
    defaultFilename "xlsx" = "report.xlsx" ∧
    (∀ fmt, fmt ≠ "xlsx" → defaultFilename fmt = "report.csv") := by
  refine ⟨?_, ?_, ?_, ?_, rfl, ?_, ?_, rfl, ?_⟩
  · intro s v d h1 h2
    have hs : s ≠ "" := by
      intro hs; rw [hs, extMatch_empty] at h1; cases h1
    simp [parseFilenameFromDisposition, hs, h1, h2]
  · intro s v h1 h2
    have hs : s ≠ "" := by
      intro hs; rw [hs, quotedMatch_empty] at h2; cases h2
    simp [parseFilenameFromDisposition, hs, h1, h2]
  · intro s v h1 h2 h3
    by_cases hs : s = ""
    · rw [hs] at h3; cases h3
    · simp [parseFilenameFromDisposition, hs, h1, h2, h3]
  · intro s h1 h2 h3
    by_cases hs : s = ""
    · simp [parseFilenameFromDisposition, hs]
    · simp [parseFilenameFromDisposition, hs, h1, h2, h3]
  · intro dis fmt h
    simp [resolveFilename, h, Except.map]
  · intro dis fmt n h hn
    simp [resolveFilename, h, Except.map, hn]
  · intro fmt h
    simp [defaultFilename, h]

/-- C1 witness: the spec's résumé scenario and the xlsx default at concrete
inputs, through `c1_filename_precedence`. -/
theorem c1_filename_precedence_witness :
    parseFilenameFromDisposition (some extHeaderExample) =
      Except.ok (some "résumé.csv") ∧
    resolveFilename (some "attachment") "xlsx" = Except.ok "report.xlsx" := by
  have h := c1_filename_precedence
  constructor
  · exact h.1 extHeaderExample "r%C3%A9sum%C3%A9.csv" "résumé.csv"
      (by decide) (by decide)
  · have := h.2.2.2.2.2.1 (some "attachment") "xlsx" (by decide)
    simpa [defaultFilename] using this

/-! ### C2 — totality of the parser -/

/-- C2 counterexample: the claim says the parser never fails or throws, in
particular on an extended form carrying a malformed percent-encoded value;
but on `filename*=UTF-8''%` it raises `decodeURIComponent`'s `URIError`. -/
theorem c2_throws_counterexample :
    parseFilenameFromDisposition (some badHeader) = Except.error JsError.uriError := by
  decide

/-- C2 amended: the parser returns a filename or null for every input whose
extended-form capture (if any) percent-decodes; when the extended form
matches with a malformed percent-encoded value, `decodeURIComponent`'s
`URIError` escapes. -/
theorem c2_totality_amended :
    ∀ dis : Option String,
      (∀ s v, dis = some s → extMatch s = some v →
        ∃ d, decodeURIComponent v = some d) →
      ∃ r, parseFilenameFromDisposition dis = Except.ok r := by
  intro dis h
  match dis with
  | none => exact ⟨none, rfl⟩
  | some s =>
    by_cases hs : s = ""
    · exact ⟨none, by simp [parseFilenameFromDisposition, hs]⟩
    · match h1 : extMatch s with
      | some v =>
        obtain ⟨d, hd⟩ := h s v rfl h1
        exact ⟨some d, by simp [parseFilenameFromDisposition, hs, h1, hd]⟩
      | none =>
        match h2 : quotedMatch s with
        | some v =>
          exact ⟨some v, by simp [parseFilenameFromDisposition, hs, h1, h2]⟩
        | none =>
          match h3 : bareMatch s with
          | some v =>
            exact ⟨some v, by simp [parseFilenameFromDisposition, hs, h1, h2, h3]⟩
          | none =>
            exact ⟨none, by simp [parseFilenameFromDisposition, hs, h1, h2, h3]⟩

/-- C2 witness: a header none of the three patterns match, through
`c2_totality_amended`. -/
theorem c2_totality_witness :
    ∃ r, parseFilenameFromDisposition (some "attachment") = Except.ok r :=
  c2_totality_amended (some "attachment")
    (by
      intro s v hs hv
      cases hs
      rw [show extMatch "attachment" = none from by decide] at hv
      cases hv)

/-! ### C7 — single credential-prompt instance -/

/-- C7: opening the prompt while one is open returns the existing instance
and performs no state mutation — the state (including the modal's
generation, fields and messages) is unchanged. -/
theorem c7_single_instance :
    ∀ s : UIState, s.modalOpen = true → openCredentialModal s = s := by
  intro s h
  simp [openCredentialModal, h]

/-- C7 witness: a second open right after the entry point opened the modal,
through `c7_single_instance`. -/
theorem c7_single_instance_witness :
    openCredentialModal (runEvents [UIEvent.entryClick]) =
      runEvents [UIEvent.entryClick] :=
  c7_single_instance (runEvents [UIEvent.entryClick]) (by decide)

/-! ### C8 — credential validation -/

/-- C8: a submission whose username is empty after trimming or whose
password is empty shows the inline error, refocuses the username field,
issues no network call and leaves every other part of the session state
unchanged; both submission paths (Enter, and the submit control when
enabled) run this same handler. -/
theorem c8_validation :
    ∀ s : UIState, s.modalOpen = true →
      (jsTrim s.usernameValue = "" ∨ s.passwordValue = "") →
      (onSubmitSync s).fetchesIssued = s.fetchesIssued ∧
      (onSubmitSync s).pending = s.pending ∧
      (onSubmitSync s).errorText = validationMsg ∧
      (onSubmitSync s).focusUsername = true ∧
      (onSubmitSync s).isLanding = s.isLanding ∧
      (onSubmitSync s).modalOpen = s.modalOpen ∧
      (onSubmitSync s).homeVisible = s.homeVisible ∧
      (onSubmitSync s).homeBtnExists = s.homeBtnExists ∧
      (onSubmitSync s).messages = s.messages ∧
      (onSubmitSync s).submitDisabled = s.submitDisabled ∧
      (onSubmitSync s).cancelDisabled = s.cancelDisabled ∧
      (onSubmitSync s).downloadBtnVisible = s.downloadBtnVisible ∧
      step s UIEvent.keyEnter = onSubmitSync s ∧
      (s.submitDisabled = false → step s UIEvent.submitClick = onSubmitSync s) := by
  intro s hopen hval
  have hEnter : step s UIEvent.keyEnter = onSubmitSync s := by simp [step, hopen]
  have hClick : s.submitDisabled = false →
      step s UIEvent.submitClick = onSubmitSync s := by
    intro hsd; simp [step, hopen, hsd]
  refine ⟨?_, ?_, ?_, ?_, ?_, ?_, ?_, ?_, ?_, ?_, ?_, ?_, hEnter, hClick⟩ <;>
    simp [onSubmitSync, hval]

/-- C8 witness: submitting the freshly opened modal (both fields empty),
through `c8_validation`. -/
theorem c8_validation_witness :
    (onSubmitSync (runEvents [UIEvent.entryClick])).fetchesIssued = 0 ∧
    (onSubmitSync (runEvents [UIEvent.entryClick])).errorText = validationMsg ∧
    (onSubmitSync (runEvents [UIEvent.entryClick])).modalOpen = true := by
  have h := c8_validation (runEvents [UIEvent.entryClick]) (by decide) (by decide)
  exact ⟨h.1.trans (by decide), h.2.2.1, h.2.2.2.2.2.1.trans (by decide)⟩

/-! ### C10 — Escape cancels even while both controls are disabled -/

/-- C10: while a submission is in flight (both prompt controls disabled) the
disabled cancel control cannot be activated, yet Escape still runs the
cancellation path: it appends the cancellation message, closes the prompt,
reveals the home control and leaves the landing flag cleared. -/
theorem c10_escape_during_flight :
    ∀ s : UIState, s.modalOpen = true → s.submitDisabled = true →
      s.cancelDisabled = true →
      step s UIEvent.cancelClick = s ∧
      (step s UIEvent.keyEscape).modalOpen = false ∧
      (step s UIEvent.keyEscape).messages = s.messages ++ [(cancelMsg, "bot")] ∧
      (step s UIEvent.keyEscape).homeBtnExists = true ∧
      (step s UIEvent.keyEscape).homeVisible = true ∧
      (step s UIEvent.keyEscape).isLanding = false := by
  intro s hopen hsd hcd
  refine ⟨?_, ?_, ?_, ?_, ?_, ?_⟩ <;>
    simp [step, hopen, hcd, onCancel, addMsg, showHome]

/-- C10 witness: Escape pressed in the in-flight state, through
`c10_escape_during_flight`. -/
theorem c10_escape_during_flight_witness :
    step inFlightState UIEvent.cancelClick = inFlightState ∧
    (step inFlightState UIEvent.keyEscape).modalOpen = false ∧
    (step inFlightState UIEvent.keyEscape).homeVisible = true := by
  have h := c10_escape_during_flight inFlightState (by decide) (by decide) (by decide)
  exact ⟨h.1, h.2.1, h.2.2.2.2.1⟩

/-! ### C3 — transient-resource (object URL) lifecycle -/

/-- C3 counterexample: after a successful response whose save action throws,
the object URL is created but never released — there is no try/finally
around `URL.revokeObjectURL`, the throw lands in the outer `catch`. -/
theorem c3_leak_counterexample :
    (runEvents [UIEvent.entryClick, UIEvent.inputCreds "a" "b", UIEvent.keyEnter,
      UIEvent.resolve 1 (Outcome.success none (some "boom"))]).urlsCreated = 1 ∧
    (runEvents [UIEvent.entryClick, UIEvent.inputCreds "a" "b", UIEvent.keyEnter,
      UIEvent.resolve 1 (Outcome.success none (some "boom"))]).urlsReleased = 0 := by
  decide

/-- C3 amended: on a successful response whose save action does not throw,
exactly one object URL is created and exactly one released; when the save
action throws, the URL is created but *not* released (the throw skips
`revokeObjectURL`); on a transport failure or HTTP error before the success
branch, no URL is ever created. -/
theorem c3_resource_lifecycle :
    (∀ (s : UIState) (gen : Nat) (d : Option String) (f : String),
      s.pending.contains gen = true → resolveFilename d "csv" = Except.ok f →
      (step s (UIEvent.resolve gen (Outcome.success d none))).urlsCreated =
        s.urlsCreated + 1 ∧
      (step s (UIEvent.resolve gen (Outcome.success d none))).urlsReleased =
        s.urlsReleased + 1) ∧
    (∀ (s : UIState) (gen : Nat) (d : Option String) (f m : String),
      s.pending.contains gen = true → resolveFilename d "csv" = Except.ok f →
      (step s (UIEvent.resolve gen (Outcome.success d (some m)))).urlsCreated =
        s.urlsCreated + 1 ∧
      (step s (UIEvent.resolve gen (Outcome.success d (some m)))).urlsReleased =
        s.urlsReleased) ∧
    (∀ (s : UIState) (gen : Nat) (m : String),
      (step s (UIEvent.resolve gen (Outcome.netError m))).urlsCreated =
        s.urlsCreated ∧
      (step s (UIEvent.resolve gen (Outcome.netError m))).urlsReleased =
        s.urlsReleased) ∧
    (∀ (s : UIState) (gen : Nat) (b : Option String) (st : Nat),
      (step s (UIEvent.resolve gen (Outcome.httpError b st))).urlsCreated =
        s.urlsCreated ∧
      (step s (UIEvent.resolve gen (Outcome.httpError b st))).urlsReleased =
        s.urlsReleased) := by
  refine ⟨?_, ?_, ?_, ?_⟩
  · intro s gen d f hp hf
    simp only [step, hp, if_true, settleResponse, hf]
    constructor <;>
      simp [addMsg, showHome, closeModalIfCurrent_urlsCreated,
        closeModalIfCurrent_urlsReleased]
  · intro s gen d f m hp hf
    simp only [step, hp, if_true, settleResponse, hf]
    exact ⟨(settleCatch_urlsCreated ..).trans rfl,
      (settleCatch_urlsReleased ..).trans rfl⟩
  · intro s gen m
    by_cases hp : s.pending.contains gen
    · simp only [step, hp, if_true, settleResponse]
      exact ⟨(settleCatch_urlsCreated ..).trans rfl,
        (settleCatch_urlsReleased ..).trans rfl⟩
    · simp only [step]
      rw [if_neg hp]
      exact ⟨rfl, rfl⟩
  · intro s gen b st
    by_cases hp : s.pending.contains gen
    · simp only [step, hp, if_true, settleResponse]
      exact ⟨(settleHttpError_urlsCreated ..).trans rfl,
        (settleHttpError_urlsReleased ..).trans rfl⟩
    · simp only [step]
      rw [if_neg hp]
      exact ⟨rfl, rfl⟩

/-- C3 witness: one release on the clean success path and no creation on a
transport failure, at concrete inputs through `c3_resource_lifecycle`. -/
theorem c3_resource_lifecycle_witness :
    (step inFlightState (UIEvent.resolve 1 (Outcome.success none none))).urlsCreated = 1 ∧
    (step inFlightState (UIEvent.resolve 1 (Outcome.success none none))).urlsReleased = 1 ∧
    (step inFlightState (UIEvent.resolve 1 (Outcome.netError "refused"))).urlsCreated = 0 := by
  have h := c3_resource_lifecycle
  have h1 := h.1 inFlightState 1 none "report.csv" (by decide) (by decide)
  have h3 := h.2.2.1 inFlightState 1 "refused"
  exact ⟨h1.1.trans (by decide), h1.2.trans (by decide), h3.1.trans (by decide)⟩

/-! ### C4 — duplicate submissions while in flight -/

/-- C4 counterexample: with a submission in flight for modal generation 1,
a second Enter keypress issues a second fetch — the overlay's `keydown`
handler calls `onSubmit` without checking the disabled controls. -/
theorem c4_duplicate_counterexample :
    (runEvents [UIEvent.entryClick, UIEvent.inputCreds "a" "b", UIEvent.keyEnter,
      UIEvent.keyEnter]).fetchesIssued = 2 ∧
    (runEvents [UIEvent.entryClick, UIEvent.inputCreds "a" "b", UIEvent.keyEnter,
      UIEvent.keyEnter]).pending = [1, 1] := by
  decide

/-- C4 amended: the submit control cannot issue a duplicate — a valid
submission disables both controls synchronously in the same turn that issues
the request, and activating the disabled control is a no-op — but the Enter
key path invokes the submit handler regardless of the disabled state, so a
duplicate submission can still be issued through Enter. -/
theorem c4_no_duplicate_via_control :
    (∀ s : UIState, s.modalOpen = true → s.submitDisabled = false →
      jsTrim s.usernameValue ≠ "" → s.passwordValue ≠ "" →
      (step s UIEvent.submitClick).submitDisabled = true ∧
      (step s UIEvent.submitClick).cancelDisabled = true ∧
      (step s UIEvent.submitClick).fetchesIssued = s.fetchesIssued + 1 ∧
      (step s UIEvent.submitClick).pending = s.pending ++ [s.modalGen]) ∧
    (∀ s : UIState, s.submitDisabled = true → step s UIEvent.submitClick = s) ∧
    (∀ s : UIState, s.modalOpen = true →
      step s UIEvent.keyEnter = onSubmitSync s) := by
  refine ⟨?_, ?_, ?_⟩
  · intro s hopen hsd hu hp
    have hval : ¬(jsTrim s.usernameValue = "" ∨ s.passwordValue = "") := by
      rintro (h | h) <;> [exact hu h; exact hp h]
    simp [step, hopen, hsd, onSubmitSync, hval, addMsg]
  · intro s hsd
    simp [step, hsd]
  · intro s hopen
    simp [step, hopen]

/-- C4 witness: a valid click-submission disables and dispatches once; a
click on the disabled control in flight is a no-op — through
`c4_no_duplicate_via_control`. -/
theorem c4_no_duplicate_via_control_witness :
    (step (runEvents [UIEvent.entryClick, UIEvent.inputCreds "a" "b"])
      UIEvent.submitClick).fetchesIssued = 1 ∧
    step inFlightState UIEvent.submitClick = inFlightState := by
  have h := c4_no_duplicate_via_control
  have h1 := h.1 (runEvents [UIEvent.entryClick, UIEvent.inputCreds "a" "b"])
    (by decide) (by decide) (by decide) (by decide)
  exact ⟨h1.2.2.1.trans (by decide), h.2.1 inFlightState (by decide)⟩

/-! ### C5 — the home-control reset -/

/-- C5 counterexample: activating HomeControl while the prompt is open does
*not* close it — `initReportChat` clears `chatBody` but never removes the
modal overlay, which lives on `document.body`. -/
theorem c5_prompt_counterexample :
    (runEvents [UIEvent.entryClick, UIEvent.homeClick]).modalOpen = true ∧
    (runEvents [UIEvent.entryClick, UIEvent.homeClick]).isLanding = true := by
  decide

/-- C5 amended: activating HomeControl from any state in which it is shown
clears the MessageLog, re-renders the welcome message and the entry-point
control, hides HomeControl and returns the session to the Initial state —
but it does not close an open credential prompt (the overlay stays, with
whatever was in its fields), and it does not discard pending requests. -/
theorem c5_home_reset :
    ∀ s : UIState, s.homeBtnExists = true → s.homeVisible = true →
      step s UIEvent.homeClick = initReportChat s ∧
      (initReportChat s).isLanding = true ∧
      (initReportChat s).homeVisible = false ∧
      (initReportChat s).homeBtnExists = true ∧
      (initReportChat s).messages = [(welcomeMsg, "bot")] ∧
      (initReportChat s).downloadBtnVisible = true ∧
      (initReportChat s).modalOpen = s.modalOpen ∧
      (initReportChat s).pending = s.pending := by
  intro s hb hv
  refine ⟨by simp [step, hb, hv], rfl, rfl, rfl, ?_, rfl, rfl, rfl⟩
  simp [initReportChat, addMsg]

/-- C5 witness: HomeControl activated right after the prompt opened, through
`c5_home_reset`. -/
theorem c5_home_reset_witness :
    step (runEvents [UIEvent.entryClick]) UIEvent.homeClick =
      initReportChat (runEvents [UIEvent.entryClick]) ∧
    (initReportChat (runEvents [UIEvent.entryClick])).modalOpen = true := by
  have h := c5_home_reset (runEvents [UIEvent.entryClick]) (by decide) (by decide)
  exact ⟨h.1, h.2.2.2.2.2.2.1.trans (by decide)⟩

/-! ### C9 — message content is interpreted as markup -/

theorem renderAux_replaceNewlines (l : List Char) (h : ∀ c ∈ l, c ≠ '<') :
    renderAux none (replaceNewlines l) = l := by
  induction l with
  | nil => rfl
  | cons c t ih =>
    have hc : c ≠ '<' := h c (List.mem_cons_self c t)
    have ht : ∀ x ∈ t, x ≠ '<' := fun x hx => h x (List.mem_cons_of_mem c hx)
    by_cases hn : c = '\n'
    · subst hn
      simp only [replaceNewlines, if_pos rfl]
      simp [renderAux, ih ht]
    · simp only [replaceNewlines, if_neg hn]
      simp [renderAux, hc, ih ht]

/-- C9 counterexample: for content `<b>hi</b>` the rendered entry does not
show the literal text — `addMessage` assigns the content to `innerHTML`, so
the tags are interpreted as markup and only `hi` is displayed. -/
theorem c9_markup_counterexample :
    renderedText (addMessageMarkup "<b>hi</b>") ≠ "<b>hi</b>" ∧
    renderedText (addMessageMarkup "<b>hi</b>") = "hi" := by
  constructor
  · decide
  · decide

/-- C9 amended: a content string free of markup-significant characters
(`<`, and `&`, which the model need not even consume) renders as exactly its
literal text, with embedded line breaks shown as visual breaks; content
containing markup characters is interpreted as HTML instead. -/
theorem c9_literal_rendering :
    ∀ content : String, (∀ c ∈ content.data, c ≠ '<' ∧ c ≠ '&') →
      renderedText (addMessageMarkup content) = content := by
  intro content h
  have : renderAux none (replaceNewlines content.data) = content.data :=
    renderAux_replaceNewlines content.data (fun c hc => (h c hc).1)
  simp only [renderedText, addMessageMarkup]
  rw [show (replaceNewlines content.data).asString.data =
    replaceNewlines content.data from List.toList_asString _, this]
  exact String.asString_toList content

/-- C9 witness: a two-line plain content renders literally (the line break
surviving as a break), through `c9_literal_rendering`. -/
theorem c9_literal_rendering_witness :
    renderedText (addMessageMarkup "line one\nline two") = "line one\nline two" :=
  c9_literal_rendering "line one\nline two" (by decide)

/-! ### C6 — home-control visibility invariant -/

theorem homeInv_onSubmitSync (s : UIState) (h : HomeInv s) :
    HomeInv (onSubmitSync s) := by
  obtain ⟨h1, h2⟩ := h
  unfold onSubmitSync
  split
  · exact ⟨h1, h2⟩
  · exact ⟨h1, h2⟩

theorem homeInv_onCancel (s : UIState) : HomeInv (onCancel s) := ⟨rfl, rfl⟩

theorem homeInv_entryHandler (s : UIState) : HomeInv (entryHandler s) := ⟨rfl, rfl⟩

theorem homeInv_initReportChat (s : UIState) : HomeInv (initReportChat s) := ⟨rfl, rfl⟩

theorem homeInv_typedHandler (t : String) (s : UIState) (h : HomeInv s) :
    HomeInv (typedHandler t s) := by
  simp only [typedHandler]
  split
  · exact h
  · split
    · exact ⟨rfl, rfl⟩
    · exact h

theorem homeInv_settleResponse (gen : Nat) (o : Outcome) (s : UIState) :
    HomeInv (settleResponse gen o s) := by
  have hc : ∀ (m : String) (t : UIState), HomeInv (settleCatch gen m t) :=
    fun m t => ⟨rfl, rfl⟩
  have hh : ∀ (e : String) (t : UIState), HomeInv (settleHttpError gen e t) :=
    fun e t => ⟨rfl, rfl⟩
  cases o with
  | httpError b st => exact hh _ _
  | netError m => exact hc _ _
  | success d ce =>
    simp only [settleResponse]
    cases hr : resolveFilename d "csv" with
    | error e => exact hc _ _
    | ok f =>
      cases ce with
      | some m => exact hc _ _
      | none => exact ⟨rfl, rfl⟩

theorem homeInv_step (s : UIState) (e : UIEvent) (h : HomeInv s) :
    HomeInv (step s e) := by
  cases e with
  | entryClick =>
    simp only [step]; split
    · exact homeInv_entryHandler s
    · exact h
  | typed t => exact homeInv_typedHandler t s h
  | inputCreds u p =>
    simp only [step]; split
    · exact ⟨h.1, h.2⟩
    · exact h
  | submitClick =>
    simp only [step]; split
    · exact homeInv_onSubmitSync s h
    · exact h
  | cancelClick =>
    simp only [step]; split
    · exact homeInv_onCancel s
    · exact h
  | keyEnter =>
    simp only [step]; split
    · exact homeInv_onSubmitSync s h
    · exact h
  | keyEscape =>
    simp only [step]; split
    · exact homeInv_onCancel s
    · exact h
  | homeClick =>
    simp only [step]; split
    · exact homeInv_initReportChat s
    · exact h
  | resolve gen o =>
    simp only [step]; split
    · exact homeInv_settleResponse gen o _
    · exact h

theorem homeInv_foldl (es : List UIEvent) (s : UIState) (h : HomeInv s) :
    HomeInv (es.foldl step s) := by
  induction es generalizing s with
  | nil => exact h
  | cons e es ih => exact ih (step s e) (homeInv_step s e h)

/-- C6: across every sequence of events (entry-point activation, typed
command, credential input, prompt submission by click or Enter, cancellation
by click or Escape, a transaction settling with success or any failure, and
the home-control reset) the home control exists and is visible exactly when
the session is not in the Initial (landing) state. -/
theorem c6_home_visibility :
    ∀ es : List UIEvent,
      (runEvents es).homeBtnExists = true ∧
      ((runEvents es).homeVisible = true ↔ (runEvents es).isLanding = false) := by
  intro es
  have h : HomeInv (runEvents es) := homeInv_foldl es initState ⟨rfl, rfl⟩
  refine ⟨h.1, ?_⟩
  rw [h.2]
  cases (runEvents es).isLanding <;> simp

end Olyph
